import Mathlib

/-!
Shallow embedding of `rhino_mcp/programmatic_client.py` (class `MCPClient`):
the supervised JSON-RPC-over-pipes client.  Pure data is modelled directly;
the stateful methods (`start_server`, `stop_server`, `send_command`) are
modelled as functions from an explicit client state and an environment
(the observations the code makes of the operating system: `poll()` results,
write success, the line read from the child's stdout) to a result, a new
state, and a trace of the I/O actions performed.
-/

namespace RhinoMCP

/-- JSON values, as produced by Python's `json` module restricted to what the
client exchanges (ints for numbers; floats do not occur in the payloads the
client builds). -/
inductive Json where
  | null : Json
  | bool : Bool → Json
  | num : Int → Json
  | str : String → Json
  | arr : List Json → Json
  | obj : List (String × Json) → Json
deriving Repr

/-- One hexadecimal digit character, for `\u00XX` escapes. -/
def hexDigit (n : Nat) : Char :=
  if n < 10 then Char.ofNat (48 + n) else Char.ofNat (87 + n)

/-- Escaping of a single character inside a JSON string literal, following
`json.dumps`: quote, backslash and the common control characters get
two-character escapes, other control characters get `\u00XX`. -/
def escChar (c : Char) : String :=
  if c = '"' then "\\\""
  else if c = '\\' then "\\\\"
  else if c = '\n' then "\\n"
  else if c = '\r' then "\\r"
  else if c = '\t' then "\\t"
  else if c.toNat < 32 then
    "\\u00" ++ String.mk [hexDigit (c.toNat / 16)] ++ String.mk [hexDigit (c.toNat % 16)]
  else String.mk [c]

/-- Escape a list of characters. -/
def escList : List Char → String
  | [] => ""
  | c :: cs => escChar c ++ escList cs

/-- A JSON string literal: quotes around the escaped content. -/
def escString (s : String) : String := "\"" ++ escList s.data ++ "\""

/-- Decimal digits of a positive natural, least significant first. -/
def natDigitsAux : Nat → List Char
  | 0 => []
  | n + 1 => hexDigit ((n + 1) % 10) :: natDigitsAux ((n + 1) / 10)
decreasing_by
  exact Nat.div_lt_self (Nat.succ_pos n) (by decide)

/-- Decimal representation of a natural number. -/
def natRepr (n : Nat) : String :=
  if n = 0 then "0" else String.mk (natDigitsAux n).reverse

/-- Decimal representation of an integer, as `json.dumps` prints Python ints. -/
def intRepr (n : Int) : String :=
  if n < 0 then "-" ++ natRepr n.natAbs else natRepr n.natAbs

mutual

/-- Compact serialization of a JSON value, following `json.dumps` with its
default separators (`", "` between items, `": "` after keys). -/
def Json.dumps : Json → String
  | .null => "null"
  | .bool b => if b then "true" else "false"
  | .num n => intRepr n
  | .str s => escString s
  | .arr xs => "[" ++ dumpsElems xs ++ "]"
  | .obj kvs => "\x7b" ++ dumpsMembers kvs ++ "\x7d"

/-- Array elements, comma separated. -/
def dumpsElems : List Json → String
  | [] => ""
  | [x] => Json.dumps x
  | x :: y :: xs => Json.dumps x ++ ", " ++ dumpsElems (y :: xs)

/-- Object members, comma separated, `": "` after each key. -/
def dumpsMembers : List (String × Json) → String
  | [] => ""
  | [(k, v)] => escString k ++ ": " ++ Json.dumps v
  | (k, v) :: m :: kvs => escString k ++ ": " ++ Json.dumps v ++ ", " ++ dumpsMembers (m :: kvs)

end

/-- Characters of an append. -/
theorem mem_data_append {c : Char} {s t : String} :
    c ∈ (s ++ t).data ↔ c ∈ s.data ∨ c ∈ t.data := by
  rw [String.data_append]; exact List.mem_append

theorem hexDigit_ne_nl (n : Nat) (h : n < 16) : hexDigit n ≠ '\n' := by
  interval_cases n <;> decide

theorem escChar_no_nl (c : Char) : '\n' ∉ (escChar c).data := by
  unfold escChar
  split_ifs with h1 h2 h3 h4 h5 h6
  · decide
  · decide
  · decide
  · decide
  · decide
  · intro hmem
    rcases mem_data_append.mp hmem with hmem | hmem
    · rcases mem_data_append.mp hmem with hmem | hmem
      · revert hmem; decide
      · exact hexDigit_ne_nl _ (by omega) (List.mem_singleton.mp hmem).symm
    · exact hexDigit_ne_nl _ (Nat.mod_lt _ (by omega)) (List.mem_singleton.mp hmem).symm
  · intro hmem
    exact h3 (List.mem_singleton.mp hmem).symm

theorem escList_no_nl (l : List Char) : '\n' ∉ (escList l).data := by
  induction l with
  | nil => simp [escList]
  | cons c cs ih =>
    rw [escList]
    intro hmem
    rcases mem_data_append.mp hmem with hmem | hmem
    · exact escChar_no_nl c hmem
    · exact ih hmem

theorem escString_no_nl (s : String) : '\n' ∉ (escString s).data := by
  rw [escString]
  intro hmem
  rcases mem_data_append.mp hmem with hmem | hmem
  · rcases mem_data_append.mp hmem with hmem | hmem
    · revert hmem; decide
    · exact escList_no_nl s.data hmem
  · revert hmem; decide

theorem natDigitsAux_no_nl : ∀ n, '\n' ∉ natDigitsAux n
  | 0 => by simp [natDigitsAux]
  | n + 1 => by
    rw [natDigitsAux]
    intro hmem
    rcases List.mem_cons.mp hmem with hmem | hmem
    · exact hexDigit_ne_nl _ (by omega) hmem.symm
    · exact natDigitsAux_no_nl ((n + 1) / 10) hmem
decreasing_by
  exact Nat.div_lt_self (Nat.succ_pos n) (by decide)

theorem natRepr_no_nl (n : Nat) : '\n' ∉ (natRepr n).data := by
  rw [natRepr]
  split_ifs
  · decide
  · intro hmem
    exact natDigitsAux_no_nl n (List.mem_reverse.mp hmem)

theorem intRepr_no_nl (n : Int) : '\n' ∉ (intRepr n).data := by
  rw [intRepr]
  split_ifs
  · intro hmem
    rcases mem_data_append.mp hmem with hmem | hmem
    · revert hmem; decide
    · exact natRepr_no_nl _ hmem
  · exact natRepr_no_nl _

mutual

theorem dumps_no_nl : ∀ j : Json, '\n' ∉ (Json.dumps j).data
  | .null => by rw [Json.dumps]; decide
  | .bool b => by rw [Json.dumps]; cases b <;> decide
  | .num n => by rw [Json.dumps]; exact intRepr_no_nl n
  | .str s => by rw [Json.dumps]; exact escString_no_nl s
  | .arr xs => by
    rw [Json.dumps]
    intro hmem
    rcases mem_data_append.mp hmem with hmem | hmem
    · rcases mem_data_append.mp hmem with hmem | hmem
      · revert hmem; decide
      · exact dumpsElems_no_nl xs hmem
    · revert hmem; decide
  | .obj kvs => by
    rw [Json.dumps]
    intro hmem
    rcases mem_data_append.mp hmem with hmem | hmem
    · rcases mem_data_append.mp hmem with hmem | hmem
      · revert hmem; decide
      · exact dumpsMembers_no_nl kvs hmem
    · revert hmem; decide

theorem dumpsElems_no_nl : ∀ xs : List Json, '\n' ∉ (dumpsElems xs).data
  | [] => by rw [dumpsElems]; simp
  | [x] => by rw [dumpsElems]; exact dumps_no_nl x
  | x :: y :: xs => by
    rw [dumpsElems]
    intro hmem
    rcases mem_data_append.mp hmem with hmem | hmem
    · rcases mem_data_append.mp hmem with hmem | hmem
      · exact dumps_no_nl x hmem
      · revert hmem; decide
    · exact dumpsElems_no_nl (y :: xs) hmem

theorem dumpsMembers_no_nl : ∀ kvs : List (String × Json), '\n' ∉ (dumpsMembers kvs).data
  | [] => by rw [dumpsMembers]; simp
  | [(k, v)] => by
    rw [dumpsMembers]
    intro hmem
    rcases mem_data_append.mp hmem with hmem | hmem
    · rcases mem_data_append.mp hmem with hmem | hmem
      · exact escString_no_nl k hmem
      · revert hmem; decide
    · exact dumps_no_nl v hmem
  | (k, v) :: m :: kvs => by
    rw [dumpsMembers]
    intro hmem
    rcases mem_data_append.mp hmem with hmem | hmem
    · rcases mem_data_append.mp hmem with hmem | hmem
      · rcases mem_data_append.mp hmem with hmem | hmem
        · rcases mem_data_append.mp hmem with hmem | hmem
          · exact escString_no_nl k hmem
          · revert hmem; decide
        · exact dumps_no_nl v hmem
      · revert hmem; decide
    · exact dumpsMembers_no_nl (m :: kvs) hmem

end

/-- Lookup in a decoded JSON object, as in a Python dict built by
`json.loads`: with duplicate keys the last occurrence wins. -/
def jLookup : List (String × Json) → String → Option Json
  | [], _ => none
  | (k, v) :: rest, key =>
    match jLookup rest key with
    | some r => some r
    | none => if k = key then some v else none

/-- Key present in a JSON object (false on non-objects); Python's `k in d`. -/
def Json.hasKey : Json → String → Bool
  | .obj kvs, k => (jLookup kvs k).isSome
  | _, _ => false

/-- `d.get(k)` on a JSON object (none on non-objects). -/
def Json.getKey : Json → String → Option Json
  | .obj kvs, k => jLookup kvs k
  | _, _ => none

/-- The Python comparison `response_data.get("id") == request_id`: the
looked-up value is the integer request id. -/
def idMatches (v : Option Json) (rid : Nat) : Bool :=
  match v with
  | some (.num m) => m == (rid : Int)
  | _ => false

/-- The observable shape of a `subprocess.Popen` handle as the client uses
it: whether the `stdin`/`stdout` attributes are set (both are, for the pipes
`start_server` creates).  Liveness is not a property of the handle: each
`poll()` call is an observation supplied by the environment. -/
structure Proc where
  hasStdin : Bool := true
  hasStdout : Bool := true
deriving Repr, DecidableEq

/-- The mutable state of an `MCPClient` instance relevant to the claims:
`self.mcp_server_process` and `self.request_id_counter` (lines 39-40). -/
structure Client where
  mcp_server_process : Option Proc := none
  request_id_counter : Nat := 0
deriving Repr, DecidableEq

/-- Observable actions the client performs on the child process and its
streams. -/
inductive Action where
  | write (s : String)
  | flush
  | warnMismatch (got : Option Json) (expected : Nat)
  | logRespError (e : Json)
  | spawn
  | terminate
  | wait
  | kill
deriving Repr

/-- Environment for one `stop_server` call: the `poll()` observation at line
113 and whether `wait(timeout=5)` returns before the timeout. -/
structure StopEnv where
  pollNow : Option Int := none
  graceful : Bool := true

/-- `MCPClient.stop_server` (lines 109-134).  Returns the new state and the
trace of process-management actions.  The bounded joins of the two logging
threads (lines 131-134) touch no client state and are not modelled.  The
function never raises. -/
def stop_server (c : Client) (env : StopEnv) : Client × List Action :=
  match c.mcp_server_process with
  | some _ =>
    if env.pollNow = none then
      -- running: terminate, wait(5); on TimeoutExpired kill then wait
      -- (lines 116-123); afterwards (line 126) the handle is cleared
      let tr := if env.graceful then [Action.terminate, Action.wait]
                else [Action.terminate, Action.kill, Action.wait]
      ({ c with mcp_server_process := none }, tr)
    else
      -- line 128: logs "not running or already stopped"; handle NOT cleared
      (c, [])
  | none => (c, [])

/-- What happens when `start_server` tries to spawn the child (lines 55-94):
success, `FileNotFoundError` from `Popen`, or some other exception —
`procAtFailure` is the value of `self.mcp_server_process` at the moment the
generic handler runs. -/
inductive SpawnOutcome where
  | ok (p : Proc)
  | fileNotFound
  | failOther (procAtFailure : Option Proc)

/-- How a `start_server` call returns: normally, or by re-raising. -/
inductive StartResult where
  | ok
  | alreadyRunning
  | raisedFileNotFound
  | raisedOther
deriving Repr, DecidableEq

/-- The try/except body of `start_server` (lines 55-94). -/
def startAttempt (c : Client) (outcome : SpawnOutcome) : Client × List Action × StartResult :=
  match outcome with
  | .ok p => ({ c with mcp_server_process := some p }, [Action.spawn], .ok)
  | .fileNotFound =>
    -- lines 84-87: handle forced to None, exception re-raised
    ({ c with mcp_server_process := none }, [], .raisedFileNotFound)
  | .failOther pf =>
    -- lines 88-94: if a handle exists, terminate and wait; handle forced to
    -- None, exception re-raised
    match pf with
    | some _ => ({ c with mcp_server_process := none }, [Action.terminate, Action.wait], .raisedOther)
    | none => ({ c with mcp_server_process := none }, [], .raisedOther)

/-- `MCPClient.start_server` (lines 45-94).  `pollNow` is the `poll()`
observation at line 51 (meaningful only when a handle exists). -/
def start_server (c : Client) (pollNow : Option Int) (outcome : SpawnOutcome) :
    Client × List Action × StartResult :=
  match c.mcp_server_process with
  | some _ =>
    if pollNow = none then (c, [], .alreadyRunning)   -- lines 51-53
    else startAttempt c outcome
  | none => startAttempt c outcome

/-- What `readline()` on the child's stdout produced (line 176): end of
stream, or a line whose `strip()`ped text is `raw`, with `parsed` the result
of `json.loads(raw)` (`none` when it raises `JSONDecodeError`). -/
inductive ReadOutcome where
  | eof
  | line (raw : String) (parsed : Option Json)

/-- Environment for one `send_command` call: the `poll()` observations at
each call site, whether the stdin write succeeds, and the read outcome.
`pollAtLock` records what `poll()` would return immediately after the lock
at line 157 is acquired; the code has no `poll()` call there, so
`send_command` never consults this field. -/
structure SendEnv where
  pollPre : Option Int := none
  pollAtLock : Option Int := none
  writeOk : Bool := true
  readResult : ReadOutcome := ReadOutcome.eof
  pollAwait : Option Int := none
  pollStop : Option Int := none
  stopGraceful : Bool := true

/-- The outcome of `send_command`: the decoded response returned at line
196, or one of the `RuntimeError` failures, one constructor per raise
site. -/
inductive SendOutcome where
  | ok (resp : Json)
  | errNotRunning                    -- line 151: "not running ... Call start_server() first"
  | errTerminated (code : Int)       -- line 155: "has terminated. Exit code: ..."
  | errCommunication                 -- line 201: BrokenPipeError on the write
  | errTerminatedAwait (code : Int)  -- line 180: "server terminated. Exit code: ..."
  | errUnexpectedEOF                 -- line 183: "empty line received"
  | errMalformed (raw : String)      -- line 204: "Invalid JSON response"
  | errOther                         -- line 207: generic except (e.g. non-dict decode)

/-- The JSON-RPC request payload assembled at lines 161-166: exactly the
four fields, with `params or {}` defaulting an absent mapping to the empty
object. -/
def requestPayload (method : String) (params : Option Json) (rid : Nat) : Json :=
  .obj [("jsonrpc", .str "2.0"), ("method", .str method),
        ("params", params.getD (.obj [])), ("id", .num (rid : Int))]

/-- Result of a `send_command` call: outcome, new client state, trace of
actions on the child's streams/process, and the request id assigned inside
the critical section (none when a precondition failed before the lock). -/
structure SendOut where
  res : SendOutcome
  client : Client
  trace : List Action
  assignedId : Option Nat

/-- `MCPClient.send_command` (lines 136-207), as a function of the client
state and the environment's observations. -/
def send_command (c : Client) (method : String) (params : Option Json) (env : SendEnv) : SendOut :=
  match c.mcp_server_process with
  | none => ⟨.errNotRunning, c, [], none⟩                 -- lines 150-151
  | some p =>
    if p.hasStdin = false ∨ p.hasStdout = false then
      ⟨.errNotRunning, c, [], none⟩                        -- lines 150-151
    else
      match env.pollPre with
      | some code => ⟨.errTerminated code, c, [], none⟩    -- lines 153-155
      | none =>
        -- line 157: the lock is acquired here; concurrent callers serialize
        let rid := c.request_id_counter + 1                -- lines 158-159
        let c' := { c with request_id_counter := rid }
        let reqLine := (requestPayload method params rid).dumps ++ "\n"
        if env.writeOk = false then
          -- BrokenPipeError: stop_server() then raise (lines 198-201)
          let s := stop_server c' ⟨env.pollStop, env.stopGraceful⟩
          ⟨.errCommunication, s.1, s.2, some rid⟩
        else
          let tr := [Action.write reqLine, Action.flush]   -- lines 173-174
          match env.readResult with
          | .eof =>
            match env.pollAwait with
            | some code => ⟨.errTerminatedAwait code, c', tr, some rid⟩  -- lines 178-180
            | none => ⟨.errUnexpectedEOF, c', tr, some rid⟩              -- lines 182-183
          | .line raw parsed =>
            match parsed with
            | none => ⟨.errMalformed raw, c', tr, some rid⟩              -- lines 202-204
            | some (.obj kvs) =>
              let got := jLookup kvs "id"
              let tr := tr ++ (if idMatches got rid then []
                               else [Action.warnMismatch got rid])       -- lines 189-190
              let tr := tr ++ (match jLookup kvs "error" with
                               | some e => [Action.logRespError e]       -- lines 192-193
                               | none => [])
              ⟨.ok (.obj kvs), c', tr, some rid⟩                         -- line 196
            | some _ =>
              -- `.get` on a non-dict raises, caught by the generic handler
              ⟨.errOther, c', tr, some rid⟩                              -- lines 205-207

/-- Params assembled by `execute_rhino_code` (line 225). -/
def execute_rhino_code_params (code : String) : Json := .obj [("code", .str code)]

/-- Params assembled by `get_rhino_objects_with_metadata` (line 242):
`"filters": filters or {}` and `"metadata_fields": metadata_fields`, the
latter passed through unconditionally (None becomes JSON null). -/
def get_rhino_objects_with_metadata_params (filters : Option (List (String × Json)))
    (metadata_fields : Option (List String)) : Json :=
  .obj [("filters", .obj (filters.getD [])),
        ("metadata_fields", match metadata_fields with
                            | none => .null
                            | some l => .arr (l.map Json.str))]

/-- Params assembled by `capture_rhino_viewport` (line 261): all three keys
always present, `layer` as JSON null when not supplied. -/
def capture_rhino_viewport_params (layer : Option String) (show_annotations : Bool)
    (max_size : Int) : Json :=
  .obj [("layer", match layer with | none => .null | some s => .str s),
        ("show_annotations", .bool show_annotations),
        ("max_size", .num max_size)]

/-- Params assembled by `update_gh_script` (lines 365-371): `instance_guid`
always; each optional key added only when the argument is not None. -/
def update_gh_script_params (instance_guid : String)
    (code description message_to_user : Option String)
    (param_definitions : Option (List Json)) : Json :=
  .obj ([("instance_guid", Json.str instance_guid)]
    ++ (match code with | some v => [("code", Json.str v)] | none => [])
    ++ (match description with | some v => [("description", Json.str v)] | none => [])
    ++ (match message_to_user with | some v => [("message_to_user", Json.str v)] | none => [])
    ++ (match param_definitions with | some v => [("param_definitions", Json.arr v)] | none => []))

/-- Params assembled by `update_gh_script_with_code_reference` (lines
392-399): `instance_guid` and `force_code_reference` always; each optional
key added only when the argument is not None. -/
def update_gh_script_with_code_reference_params (instance_guid : String)
    (file_path : Option String) (param_definitions : Option (List Json))
    (description name : Option String) (force_code_reference : Bool) : Json :=
  .obj ([("instance_guid", Json.str instance_guid),
         ("force_code_reference", Json.bool force_code_reference)]
    ++ (match file_path with | some v => [("file_path", Json.str v)] | none => [])
    ++ (match param_definitions with | some v => [("param_definitions", Json.arr v)] | none => [])
    ++ (match description with | some v => [("description", Json.str v)] | none => [])
    ++ (match name with | some v => [("name", Json.str v)] | none => []))

/-- `MCPClient.capture_rhino_viewport` (lines 245-262): delegates to
`send_command` with method `"capture_viewport"`. -/
def capture_rhino_viewport (c : Client) (env : SendEnv) (layer : Option String)
    (show_annotations : Bool) (max_size : Int) : SendOut :=
  send_command c "capture_viewport"
    (some (capture_rhino_viewport_params layer show_annotations max_size)) env

/-- `MCPClient.get_rhino_objects_with_metadata` (lines 227-243): delegates
to `send_command` with method `"get_scene_objects_with_metadata"`. -/
def get_rhino_objects_with_metadata (c : Client) (env : SendEnv)
    (filters : Option (List (String × Json))) (metadata_fields : Option (List String)) : SendOut :=
  send_command c "get_scene_objects_with_metadata"
    (some (get_rhino_objects_with_metadata_params filters metadata_fields)) env

/-- One `send_command` call: method, params, and the environment it
observes. -/
structure Call where
  method : String
  params : Option Json
  env : SendEnv

/-- Run a sequence of `send_command` calls on one client instance,
collecting each call's assigned request id.  The channel's lock serializes
the critical sections, so any concurrent interleaving of N calls executes
as some sequence of N critical sections; this function models that
sequence. -/
def runCalls : Client → List Call → Client × List (Option Nat)
  | c, [] => (c, [])
  | c, call :: rest =>
    let out := send_command c call.method call.params call.env
    let r := runCalls out.client rest
    (r.1, out.assignedId :: r.2)

/-! ## Helper lemmas -/

/-- Shape of the trace in the decoded-response branch. -/
theorem two_cons_append (a b : Action) (A B : List Action) :
    ([a, b] ++ A) ++ B = a :: b :: (A ++ B) := by simp

/-- `send_command` never consults the post-lock liveness observation: its
result is the same for any value of `pollAtLock`. -/
theorem send_command_pollAtLock_irrelevant (c : Client) (m : String) (prm : Option Json)
    (env : SendEnv) (x : Option Int) :
    send_command c m prm { env with pollAtLock := x } = send_command c m prm env := rfl

/-- Under the preconditions and a successful write, `send_command` leaves the
process handle in place, bumps the counter by one, and returns that counter
value as the assigned id. -/
theorem send_command_state (c : Client) (p : Proc) (m : String) (prm : Option Json)
    (env : SendEnv) (hproc : c.mcp_server_process = some p)
    (hin : p.hasStdin = true) (hout : p.hasStdout = true)
    (hpre : env.pollPre = none) (hw : env.writeOk = true) :
    (send_command c m prm env).client =
      { c with request_id_counter := c.request_id_counter + 1 } ∧
    (send_command c m prm env).assignedId = some (c.request_id_counter + 1) := by
  obtain ⟨proc, ctr⟩ := c
  obtain ⟨si, so⟩ := p
  replace hproc : proc = some ⟨si, so⟩ := hproc
  obtain ⟨e1, e2, e3, e4, e5, e6, e7⟩ := env
  replace hpre : e1 = none := hpre
  replace hw : e3 = true := hw
  replace hin : si = true := hin
  replace hout : so = true := hout
  subst hproc hpre hw hin hout
  cases e4 with
  | eof => cases e5 <;> exact ⟨rfl, rfl⟩
  | line raw parsed =>
    cases parsed with
    | none => exact ⟨rfl, rfl⟩
    | some j => cases j <;> exact ⟨rfl, rfl⟩

/-! ## Claims -/

/-- C1, counterexample.  The claim asserts the liveness precondition is
re-checked after the lock is acquired, so that a death between the fast-path
check and the lock is detected before the request id is assigned and the
request written.  At this input the process is alive at the fast-path check
(`pollPre = none`) but dead once the lock is held (`pollAtLock = some 1`),
yet the call assigns id 1 and writes the request line: the claim is false. -/
theorem C1_counterexample_no_recheck :
    ¬ ((send_command ⟨some ⟨true, true⟩, 0⟩ "get_layers" none
          ⟨none, some 1, true, ReadOutcome.eof, some 1, none, true⟩).assignedId = none ∧
       (send_command ⟨some ⟨true, true⟩, 0⟩ "get_layers" none
          ⟨none, some 1, true, ReadOutcome.eof, some 1, none, true⟩).trace = []) := by
  intro h
  exact Option.noConfusion ((rfl :
    (send_command ⟨some ⟨true, true⟩, 0⟩ "get_layers" none
      ⟨none, some 1, true, ReadOutcome.eof, some 1, none, true⟩).assignedId = some 1).symm.trans h.1)

/-- C1, amended: the liveness precondition (handle present, streams
available, `poll()` shows no exit) is checked only once, before the lock at
line 157 is acquired; the code performs no further liveness check after
acquiring the lock, so its behaviour is independent of the post-lock
liveness, and whenever the pre-lock checks pass the request id
`counter + 1` is assigned and (when the write does not fail) the request is
written. -/
theorem C1_amended_prelock_check_only (c : Client) (p : Proc) (m : String)
    (prm : Option Json) (env : SendEnv) (x : Option Int)
    (hproc : c.mcp_server_process = some p)
    (hin : p.hasStdin = true) (hout : p.hasStdout = true)
    (hpre : env.pollPre = none) :
    send_command c m prm { env with pollAtLock := x } = send_command c m prm env ∧
    (send_command c m prm env).assignedId = some (c.request_id_counter + 1) ∧
    (env.writeOk = true →
      ∃ rest, (send_command c m prm env).trace =
        Action.write ((requestPayload m prm (c.request_id_counter + 1)).dumps ++ "\n") ::
          Action.flush :: rest) := by
  refine ⟨send_command_pollAtLock_irrelevant c m prm env x, ?_, ?_⟩ <;>
  · obtain ⟨proc, ctr⟩ := c
    obtain ⟨si, so⟩ := p
    replace hproc : proc = some ⟨si, so⟩ := hproc
    obtain ⟨e1, e2, e3, e4, e5, e6, e7⟩ := env
    replace hpre : e1 = none := hpre
    replace hin : si = true := hin
    replace hout : so = true := hout
    subst hproc hpre hin hout
    first
    | (cases e3
       · rfl
       · cases e4 with
         | eof => cases e5 <;> rfl
         | line raw parsed =>
           cases parsed with
           | none => rfl
           | some j => cases j <;> rfl)
    | (intro hw
       replace hw : e3 = true := hw
       subst hw
       cases e4 with
       | eof => cases e5 <;> exact ⟨[], rfl⟩
       | line raw parsed =>
         cases parsed with
         | none => exact ⟨[], rfl⟩
         | some j =>
           cases j <;> first
             | exact ⟨[], rfl⟩
             | exact ⟨_, two_cons_append _ _ _ _⟩)

/-- C1 amended, witness at a concrete input. -/
theorem C1_amended_witness :
    send_command ⟨some ⟨true, true⟩, 0⟩ "get_layers" none
        ⟨none, some 1, true, ReadOutcome.eof, some 1, none, true⟩ =
      send_command ⟨some ⟨true, true⟩, 0⟩ "get_layers" none
        ⟨none, none, true, ReadOutcome.eof, some 1, none, true⟩ ∧
    (send_command ⟨some ⟨true, true⟩, 0⟩ "get_layers" none
        ⟨none, none, true, ReadOutcome.eof, some 1, none, true⟩).assignedId = some 1 ∧
    (send_command ⟨some ⟨true, true⟩, 0⟩ "get_layers" none
        ⟨none, none, true, ReadOutcome.eof, some 1, none, true⟩).trace
      = [Action.write ((requestPayload "get_layers" none 1).dumps ++ "\n"), Action.flush] :=
  ⟨(C1_amended_prelock_check_only ⟨some ⟨true, true⟩, 0⟩ ⟨true, true⟩ "get_layers" none
      ⟨none, none, true, ReadOutcome.eof, some 1, none, true⟩ (some 1) rfl rfl rfl rfl).1,
   (C1_amended_prelock_check_only ⟨some ⟨true, true⟩, 0⟩ ⟨true, true⟩ "get_layers" none
      ⟨none, none, true, ReadOutcome.eof, some 1, none, true⟩ (some 1) rfl rfl rfl rfl).2.1,
   rfl⟩

/-- Ids assigned by a run of calls that all reach the critical section,
starting from counter value `k`: consecutive integers from `k + 1`. -/
theorem runCalls_ids (p : Proc) (hin : p.hasStdin = true) (hout : p.hasStdout = true) :
    ∀ (calls : List Call) (k : Nat),
      (∀ call ∈ calls, call.env.pollPre = none) →
      (∀ call ∈ calls, call.env.writeOk = true) →
      (runCalls ⟨some p, k⟩ calls).2 = (List.range' (k + 1) calls.length).map some
  | [], _, _, _ => rfl
  | call :: rest, k, hpre, hw => by
    have hstate := send_command_state ⟨some p, k⟩ p call.method call.params call.env rfl hin hout
      (hpre call (List.mem_cons_self _ _)) (hw call (List.mem_cons_self _ _))
    have hclient : (send_command ⟨some p, k⟩ call.method call.params call.env).client
        = ⟨some p, k + 1⟩ := hstate.1
    show (send_command ⟨some p, k⟩ call.method call.params call.env).assignedId ::
        (runCalls (send_command ⟨some p, k⟩ call.method call.params call.env).client rest).2
      = (List.range' (k + 1) (call :: rest).length).map some
    rw [hstate.2, hclient,
      runCalls_ids p hin hout rest (k + 1) (fun cl h => hpre cl (List.mem_cons_of_mem _ h))
        (fun cl h => hw cl (List.mem_cons_of_mem _ h))]
    rfl

/-- C2: for every sequence of N `send_command` calls on a started client
with a fresh counter, where every call passes the pre-lock liveness check
and its write succeeds, the request ids placed into the serialized requests
are exactly 1, 2, …, N in order — no duplicates, no gaps.  The channel's
lock makes any concurrent interleaving execute its critical sections in
some sequence, which `runCalls` models; the counter is incremented and read
only inside that critical section. -/
theorem C2_request_ids_exact (p : Proc) (calls : List Call)
    (hin : p.hasStdin = true) (hout : p.hasStdout = true)
    (hpre : ∀ call ∈ calls, call.env.pollPre = none)
    (hw : ∀ call ∈ calls, call.env.writeOk = true) :
    (runCalls ⟨some p, 0⟩ calls).2 = (List.range' 1 calls.length).map some :=
  runCalls_ids p hin hout calls 0 hpre hw

/-- C2, witness: three calls get ids 1, 2, 3. -/
theorem C2_witness :
    (runCalls ⟨some ⟨true, true⟩, 0⟩
        [⟨"get_scene_info", none, ⟨none, none, true, ReadOutcome.eof, none, none, true⟩⟩,
         ⟨"get_layers", none, ⟨none, none, true, ReadOutcome.eof, none, none, true⟩⟩,
         ⟨"get_scene_info", none, ⟨none, none, true, ReadOutcome.eof, none, none, true⟩⟩]).2
      = [some 1, some 2, some 3] :=
  C2_request_ids_exact ⟨true, true⟩ _ rfl rfl
    (by intro call h; fin_cases h <;> rfl)
    (by intro call h; fin_cases h <;> rfl)

/-- C3, counterexample.  The claim asserts that an omitted optional argument
leaves its key out of the transmitted params; but `capture_rhino_viewport`
called without a layer still includes the `"layer"` key (as JSON null), so
the claim as stated is false. -/
theorem C3_counterexample_layer_key_present :
    ¬ (Json.hasKey (capture_rhino_viewport_params none true 800) "layer" = false) := by
  decide

/-- C3, amended: `update_gh_script` and
`update_gh_script_with_code_reference` omit the keys of unsupplied optional
arguments, but `capture_rhino_viewport` always transmits `"layer"` (JSON
null when unsupplied) and `get_rhino_objects_with_metadata` always
transmits `"metadata_fields"` (JSON null when unsupplied; an unsupplied
`filters` becomes the empty object, not an absent key). -/
theorem C3_amended_optional_params :
    (∀ sa ms, Json.getKey (capture_rhino_viewport_params none sa ms) "layer"
        = some Json.null) ∧
    (∀ f, Json.getKey (get_rhino_objects_with_metadata_params f none) "metadata_fields"
        = some Json.null) ∧
    (∀ f, Json.getKey (get_rhino_objects_with_metadata_params none f) "filters"
        = some (Json.obj [])) ∧
    (∀ g, Json.hasKey (update_gh_script_params g none none none none) "code" = false ∧
      Json.hasKey (update_gh_script_params g none none none none) "description" = false ∧
      Json.hasKey (update_gh_script_params g none none none none) "message_to_user" = false ∧
      Json.hasKey (update_gh_script_params g none none none none) "param_definitions" = false ∧
      Json.hasKey (update_gh_script_params g none none none none) "instance_guid" = true) ∧
    (∀ g fc,
      Json.hasKey (update_gh_script_with_code_reference_params g none none none none fc)
        "file_path" = false ∧
      Json.hasKey (update_gh_script_with_code_reference_params g none none none none fc)
        "param_definitions" = false ∧
      Json.hasKey (update_gh_script_with_code_reference_params g none none none none fc)
        "description" = false ∧
      Json.hasKey (update_gh_script_with_code_reference_params g none none none none fc)
        "name" = false ∧
      Json.hasKey (update_gh_script_with_code_reference_params g none none none none fc)
        "force_code_reference" = true) :=
  ⟨fun _ _ => rfl, fun _ => rfl, fun f => by cases f <;> rfl,
   fun _ => ⟨rfl, rfl, rfl, rfl, rfl⟩, fun _ _ => ⟨rfl, rfl, rfl, rfl, rfl⟩⟩

/-- C4: an empty read with the process now dead fails with the
terminated-while-awaiting failure carrying the exit code; an empty read
with the process still alive fails with the distinct unexpected-EOF
failure; the two constructors are never equal. -/
theorem C4_empty_read_classification (c : Client) (p : Proc) (m : String)
    (prm : Option Json) (env : SendEnv)
    (hproc : c.mcp_server_process = some p)
    (hin : p.hasStdin = true) (hout : p.hasStdout = true)
    (hpre : env.pollPre = none) (hw : env.writeOk = true)
    (hr : env.readResult = ReadOutcome.eof) :
    (∀ code, env.pollAwait = some code →
       (send_command c m prm env).res = SendOutcome.errTerminatedAwait code) ∧
    (env.pollAwait = none →
       (send_command c m prm env).res = SendOutcome.errUnexpectedEOF) ∧
    (∀ code, SendOutcome.errTerminatedAwait code ≠ SendOutcome.errUnexpectedEOF) := by
  obtain ⟨proc, ctr⟩ := c
  obtain ⟨si, so⟩ := p
  replace hproc : proc = some ⟨si, so⟩ := hproc
  obtain ⟨e1, e2, e3, e4, e5, e6, e7⟩ := env
  replace hpre : e1 = none := hpre
  replace hw : e3 = true := hw
  replace hr : e4 = ReadOutcome.eof := hr
  replace hin : si = true := hin
  replace hout : so = true := hout
  subst hproc hpre hw hr hin hout
  refine ⟨?_, ?_, ?_⟩
  · intro code hc
    replace hc : e5 = some code := hc
    subst hc
    rfl
  · intro hc
    replace hc : e5 = none := hc
    subst hc
    rfl
  · intro code h
    exact SendOutcome.noConfusion h

/-- C4, witness: exit code 17 versus still-alive, at concrete inputs. -/
theorem C4_witness :
    (send_command ⟨some ⟨true, true⟩, 0⟩ "get_layers" none
        ⟨none, none, true, ReadOutcome.eof, some 17, none, true⟩).res
      = SendOutcome.errTerminatedAwait 17 ∧
    (send_command ⟨some ⟨true, true⟩, 0⟩ "get_layers" none
        ⟨none, none, true, ReadOutcome.eof, none, none, true⟩).res
      = SendOutcome.errUnexpectedEOF :=
  ⟨(C4_empty_read_classification ⟨some ⟨true, true⟩, 0⟩ ⟨true, true⟩ "get_layers" none
      ⟨none, none, true, ReadOutcome.eof, some 17, none, true⟩
      rfl rfl rfl rfl rfl rfl).1 17 rfl,
   (C4_empty_read_classification ⟨some ⟨true, true⟩, 0⟩ ⟨true, true⟩ "get_layers" none
      ⟨none, none, true, ReadOutcome.eof, none, none, true⟩
      rfl rfl rfl rfl rfl rfl).2.1 rfl⟩

/-- C5: a successfully decoded response carrying an `"error"` field does not
raise: the error is logged and the full decoded object is returned exactly
as on the success path. -/
theorem C5_error_field_is_data (c : Client) (p : Proc) (m : String) (prm : Option Json)
    (env : SendEnv) (raw : String) (kvs : List (String × Json)) (e : Json)
    (hproc : c.mcp_server_process = some p)
    (hin : p.hasStdin = true) (hout : p.hasStdout = true)
    (hpre : env.pollPre = none) (hw : env.writeOk = true)
    (hr : env.readResult = ReadOutcome.line raw (some (Json.obj kvs)))
    (herr : jLookup kvs "error" = some e) :
    (send_command c m prm env).res = SendOutcome.ok (Json.obj kvs) ∧
    Action.logRespError e ∈ (send_command c m prm env).trace := by
  obtain ⟨proc, ctr⟩ := c
  obtain ⟨si, so⟩ := p
  replace hproc : proc = some ⟨si, so⟩ := hproc
  obtain ⟨e1, e2, e3, e4, e5, e6, e7⟩ := env
  replace hpre : e1 = none := hpre
  replace hw : e3 = true := hw
  replace hr : e4 = ReadOutcome.line raw (some (Json.obj kvs)) := hr
  replace hin : si = true := hin
  replace hout : so = true := hout
  subst hproc hpre hw hr hin hout
  refine ⟨rfl, ?_⟩
  have htr : (send_command ⟨some ⟨true, true⟩, ctr⟩ m prm
      ⟨none, e2, true, ReadOutcome.line raw (some (Json.obj kvs)), e5, e6, e7⟩).trace
      = ([Action.write ((requestPayload m prm (ctr + 1)).dumps ++ "\n"), Action.flush]
          ++ (if idMatches (jLookup kvs "id") (ctr + 1) = true then []
              else [Action.warnMismatch (jLookup kvs "id") (ctr + 1)]))
        ++ (match jLookup kvs "error" with
            | some e' => [Action.logRespError e']
            | none => []) := rfl
  rw [htr, herr]
  exact List.mem_append_right _ (List.mem_singleton_self _)

/-- C5, witness at a concrete response object. -/
theorem C5_witness :
    (send_command ⟨some ⟨true, true⟩, 0⟩ "execute_rhino_code" none
        ⟨none, none, true,
         ReadOutcome.line "x"
           (some (Json.obj [("id", Json.num 1), ("error", Json.str "boom")])),
         none, none, true⟩).res
      = SendOutcome.ok (Json.obj [("id", Json.num 1), ("error", Json.str "boom")]) ∧
    Action.logRespError (Json.str "boom")
      ∈ (send_command ⟨some ⟨true, true⟩, 0⟩ "execute_rhino_code" none
          ⟨none, none, true,
           ReadOutcome.line "x"
             (some (Json.obj [("id", Json.num 1), ("error", Json.str "boom")])),
           none, none, true⟩).trace :=
  C5_error_field_is_data ⟨some ⟨true, true⟩, 0⟩ ⟨true, true⟩ "execute_rhino_code" none
    ⟨none, none, true,
     ReadOutcome.line "x"
       (some (Json.obj [("id", Json.num 1), ("error", Json.str "boom")])),
     none, none, true⟩ "x" [("id", Json.num 1), ("error", Json.str "boom")]
    (Json.str "boom") rfl rfl rfl rfl rfl rfl rfl

/-- C7: a successfully decoded response whose id differs from the assigned
request id is still returned unchanged; a warning action is emitted, the
call does not fail, and the only write on the wire remains the single
request line (no re-read, re-write or re-correlation). -/
theorem C7_mismatch_still_returned (c : Client) (p : Proc) (m : String) (prm : Option Json)
    (env : SendEnv) (raw : String) (kvs : List (String × Json))
    (hproc : c.mcp_server_process = some p)
    (hin : p.hasStdin = true) (hout : p.hasStdout = true)
    (hpre : env.pollPre = none) (hw : env.writeOk = true)
    (hr : env.readResult = ReadOutcome.line raw (some (Json.obj kvs)))
    (hmm : idMatches (jLookup kvs "id") (c.request_id_counter + 1) = false) :
    (send_command c m prm env).res = SendOutcome.ok (Json.obj kvs) ∧
    Action.warnMismatch (jLookup kvs "id") (c.request_id_counter + 1)
      ∈ (send_command c m prm env).trace ∧
    (∀ s, Action.write s ∈ (send_command c m prm env).trace →
      s = (requestPayload m prm (c.request_id_counter + 1)).dumps ++ "\n") := by
  obtain ⟨proc, ctr⟩ := c
  obtain ⟨si, so⟩ := p
  replace hproc : proc = some ⟨si, so⟩ := hproc
  obtain ⟨e1, e2, e3, e4, e5, e6, e7⟩ := env
  replace hpre : e1 = none := hpre
  replace hw : e3 = true := hw
  replace hr : e4 = ReadOutcome.line raw (some (Json.obj kvs)) := hr
  replace hin : si = true := hin
  replace hout : so = true := hout
  replace hmm : idMatches (jLookup kvs "id") (ctr + 1) = false := hmm
  subst hproc hpre hw hr hin hout
  have htr : (send_command ⟨some ⟨true, true⟩, ctr⟩ m prm
      ⟨none, e2, true, ReadOutcome.line raw (some (Json.obj kvs)), e5, e6, e7⟩).trace
      = ([Action.write ((requestPayload m prm (ctr + 1)).dumps ++ "\n"), Action.flush]
          ++ (if idMatches (jLookup kvs "id") (ctr + 1) = true then []
              else [Action.warnMismatch (jLookup kvs "id") (ctr + 1)]))
        ++ (match jLookup kvs "error" with
            | some e' => [Action.logRespError e']
            | none => []) := rfl
  refine ⟨rfl, ?_, ?_⟩
  · rcases hj : jLookup kvs "error" with _ | e9 <;>
      · rw [htr, hmm, hj]
        simp
  · intro s hs
    rw [htr, hmm] at hs
    rcases hj : jLookup kvs "error" with _ | e9 <;>
      · rw [hj] at hs
        simp at hs
        exact hs

/-- C7, witness: response id 2 against assigned id 1. -/
theorem C7_witness :
    (send_command ⟨some ⟨true, true⟩, 0⟩ "get_layers" none
        ⟨none, none, true, ReadOutcome.line "x" (some (Json.obj [("id", Json.num 2)])),
         none, none, true⟩).res
      = SendOutcome.ok (Json.obj [("id", Json.num 2)]) ∧
    Action.warnMismatch (jLookup [("id", Json.num 2)] "id") 1
      ∈ (send_command ⟨some ⟨true, true⟩, 0⟩ "get_layers" none
          ⟨none, none, true, ReadOutcome.line "x" (some (Json.obj [("id", Json.num 2)])),
           none, none, true⟩).trace :=
  ⟨(C7_mismatch_still_returned ⟨some ⟨true, true⟩, 0⟩ ⟨true, true⟩ "get_layers" none
      ⟨none, none, true, ReadOutcome.line "x" (some (Json.obj [("id", Json.num 2)])),
       none, none, true⟩ "x" [("id", Json.num 2)] rfl rfl rfl rfl rfl rfl rfl).1,
   (C7_mismatch_still_returned ⟨some ⟨true, true⟩, 0⟩ ⟨true, true⟩ "get_layers" none
      ⟨none, none, true, ReadOutcome.line "x" (some (Json.obj [("id", Json.num 2)])),
       none, none, true⟩ "x" [("id", Json.num 2)] rfl rfl rfl rfl rfl rfl rfl).2.1⟩

/-- C8: once the pre-lock checks pass and the write succeeds, exactly one
line is written — the serialization of an object with precisely the four
fields `jsonrpc`, `method`, `params` (defaulting to the empty object) and
`id` — followed by a single `"\n"` terminator (the serialized form contains
no newline), and the stream is flushed immediately after the write, with no
further write or flush in the call. -/
theorem C8_request_wire_format (c : Client) (p : Proc) (m : String) (prm : Option Json)
    (env : SendEnv)
    (hproc : c.mcp_server_process = some p)
    (hin : p.hasStdin = true) (hout : p.hasStdout = true)
    (hpre : env.pollPre = none) (hw : env.writeOk = true) :
    requestPayload m prm (c.request_id_counter + 1)
      = Json.obj [("jsonrpc", Json.str "2.0"), ("method", Json.str m),
                  ("params", prm.getD (Json.obj [])),
                  ("id", Json.num ((c.request_id_counter + 1 : Nat) : Int))] ∧
    '\n' ∉ ((requestPayload m prm (c.request_id_counter + 1)).dumps).data ∧
    ∃ rest, (send_command c m prm env).trace =
        Action.write ((requestPayload m prm (c.request_id_counter + 1)).dumps ++ "\n") ::
          Action.flush :: rest ∧
        (∀ a ∈ rest, (∀ s, a ≠ Action.write s) ∧ a ≠ Action.flush) := by
  refine ⟨rfl, dumps_no_nl _, ?_⟩
  obtain ⟨proc, ctr⟩ := c
  obtain ⟨si, so⟩ := p
  replace hproc : proc = some ⟨si, so⟩ := hproc
  obtain ⟨e1, e2, e3, e4, e5, e6, e7⟩ := env
  replace hpre : e1 = none := hpre
  replace hw : e3 = true := hw
  replace hin : si = true := hin
  replace hout : so = true := hout
  subst hproc hpre hw hin hout
  cases e4 with
  | eof => cases e5 <;> exact ⟨[], rfl, by simp⟩
  | line raw parsed =>
    cases parsed with
    | none => exact ⟨[], rfl, by simp⟩
    | some j =>
      cases j with
      | obj kvs =>
        refine ⟨_, two_cons_append _ _ _ _, ?_⟩
        intro a ha
        rcases List.mem_append.mp ha with ha | ha
        · cases hcond : idMatches (jLookup kvs "id") (ctr + 1) <;> rw [hcond] at ha <;>
            simp at ha
          subst ha
          exact ⟨fun s h => Action.noConfusion h, fun h => Action.noConfusion h⟩
        · rcases hj : jLookup kvs "error" with _ | e9 <;> rw [hj] at ha <;> simp at ha
          subst ha
          exact ⟨fun s h => Action.noConfusion h, fun h => Action.noConfusion h⟩
      | null => exact ⟨[], rfl, by simp⟩
      | bool b => exact ⟨[], rfl, by simp⟩
      | num n => exact ⟨[], rfl, by simp⟩
      | str s => exact ⟨[], rfl, by simp⟩
      | arr xs => exact ⟨[], rfl, by simp⟩

/-- C8, witness at a concrete call: payload shape, no embedded newline,
trace is exactly one write followed by one flush. -/
theorem C8_witness :
    requestPayload "get_layers" none 1
      = Json.obj [("jsonrpc", Json.str "2.0"), ("method", Json.str "get_layers"),
                  ("params", Json.obj []), ("id", Json.num 1)] ∧
    '\n' ∉ ((requestPayload "get_layers" none 1).dumps).data ∧
    (send_command ⟨some ⟨true, true⟩, 0⟩ "get_layers" none
        ⟨none, none, true, ReadOutcome.eof, none, none, true⟩).trace
      = [Action.write ((requestPayload "get_layers" none 1).dumps ++ "\n"), Action.flush] :=
  ⟨(C8_request_wire_format ⟨some ⟨true, true⟩, 0⟩ ⟨true, true⟩ "get_layers" none
      ⟨none, none, true, ReadOutcome.eof, none, none, true⟩ rfl rfl rfl rfl rfl).1,
   (C8_request_wire_format ⟨some ⟨true, true⟩, 0⟩ ⟨true, true⟩ "get_layers" none
      ⟨none, none, true, ReadOutcome.eof, none, none, true⟩ rfl rfl rfl rfl rfl).2.1,
   rfl⟩

/-- C6: stopping an already-stopped (or never-started) client is a no-op
with no shutdown side effects and no exception; after a completed stop the
handle is cleared, a second stop is again a no-op, and a subsequent
`send_command` fails with the not-running precondition failure without
touching the wire. -/
theorem C6_stop_idempotent (c : Client) (env env2 : StopEnv) (senv : SendEnv)
    (m : String) (prm : Option Json) :
    (c.mcp_server_process = none → stop_server c env = (c, [])) ∧
    (∀ p, c.mcp_server_process = some p → env.pollNow = none →
      (stop_server c env).1.mcp_server_process = none ∧
      stop_server (stop_server c env).1 env2 = ((stop_server c env).1, []) ∧
      (send_command (stop_server c env).1 m prm senv).res = SendOutcome.errNotRunning ∧
      (send_command (stop_server c env).1 m prm senv).trace = []) := by
  obtain ⟨proc, ctr⟩ := c
  obtain ⟨pn, gr⟩ := env
  constructor
  · intro h
    replace h : proc = none := h
    subst h
    rfl
  · intro p hp hpn
    replace hp : proc = some p := hp
    replace hpn : pn = none := hpn
    subst hp hpn
    exact ⟨rfl, rfl, rfl, rfl⟩

/-- C6, witness: a never-started client, and a running client stopped then
stopped again and invoked. -/
theorem C6_witness :
    stop_server ⟨none, 5⟩ ⟨none, true⟩ = (⟨none, 5⟩, []) ∧
    ((stop_server ⟨some ⟨true, true⟩, 2⟩ ⟨none, true⟩).1.mcp_server_process = none ∧
     stop_server (stop_server ⟨some ⟨true, true⟩, 2⟩ ⟨none, true⟩).1 ⟨none, true⟩
       = ((stop_server ⟨some ⟨true, true⟩, 2⟩ ⟨none, true⟩).1, []) ∧
     (send_command (stop_server ⟨some ⟨true, true⟩, 2⟩ ⟨none, true⟩).1 "get_layers" none
         ⟨none, none, true, ReadOutcome.eof, none, none, true⟩).res
       = SendOutcome.errNotRunning ∧
     (send_command (stop_server ⟨some ⟨true, true⟩, 2⟩ ⟨none, true⟩).1 "get_layers" none
         ⟨none, none, true, ReadOutcome.eof, none, none, true⟩).trace = []) :=
  ⟨(C6_stop_idempotent ⟨none, 5⟩ ⟨none, true⟩ ⟨none, true⟩
      ⟨none, none, true, ReadOutcome.eof, none, none, true⟩ "get_layers" none).1 rfl,
   (C6_stop_idempotent ⟨some ⟨true, true⟩, 2⟩ ⟨none, true⟩ ⟨none, true⟩
      ⟨none, none, true, ReadOutcome.eof, none, none, true⟩ "get_layers" none).2
     ⟨true, true⟩ rfl rfl⟩

/-- C9: every failing `start_server` attempt (executable not found, or any
other spawn-time exception) re-raises, terminates-and-waits any
partially-started child on the generic failure path, and leaves the client
with no process handle — the failure is atomic for client state. -/
theorem C9_start_failure_atomic (c : Client) (pollNow : Option Int) (oc : SpawnOutcome)
    (hnr : c.mcp_server_process = none ∨ pollNow ≠ none) :
    (oc = SpawnOutcome.fileNotFound →
      start_server c pollNow oc
        = ({ c with mcp_server_process := none }, [], StartResult.raisedFileNotFound)) ∧
    (∀ pf, oc = SpawnOutcome.failOther pf →
      start_server c pollNow oc
        = ({ c with mcp_server_process := none },
           (match pf with
            | some _ => [Action.terminate, Action.wait]
            | none => []),
           StartResult.raisedOther)) := by
  obtain ⟨proc, ctr⟩ := c
  constructor
  · intro h
    subst h
    cases proc with
    | none => rfl
    | some p =>
      rcases hnr with hnr | hnr
      · exact Option.noConfusion hnr
      · cases pollNow with
        | none => exact absurd rfl hnr
        | some code => rfl
  · intro pf h
    subst h
    cases pf <;>
      (cases proc with
       | none => rfl
       | some p =>
         rcases hnr with hnr | hnr
         · exact Option.noConfusion hnr
         · cases pollNow with
           | none => exact absurd rfl hnr
           | some code => rfl)

/-- C9, witness: both failure kinds on a never-started client. -/
theorem C9_witness :
    start_server ⟨none, 0⟩ none SpawnOutcome.fileNotFound
      = (⟨none, 0⟩, [], StartResult.raisedFileNotFound) ∧
    start_server ⟨none, 0⟩ none (SpawnOutcome.failOther (some ⟨true, true⟩))
      = (⟨none, 0⟩, [Action.terminate, Action.wait], StartResult.raisedOther) :=
  ⟨(C9_start_failure_atomic ⟨none, 0⟩ none SpawnOutcome.fileNotFound (Or.inl rfl)).1 rfl,
   (C9_start_failure_atomic ⟨none, 0⟩ none (SpawnOutcome.failOther (some ⟨true, true⟩))
      (Or.inl rfl)).2 (some ⟨true, true⟩) rfl⟩

/-- C10: when the child exited on its own, `stop_server` takes the
not-running branch and leaves the handle in place; a later `send_command`
then passes the streams-available check and fails with the
terminated-with-exit-code failure, not the not-running failure. -/
theorem C10_dead_child_stop_then_invoke (c : Client) (p : Proc) (code : Int)
    (stEnv : StopEnv) (senv : SendEnv) (m : String) (prm : Option Json)
    (hproc : c.mcp_server_process = some p)
    (hin : p.hasStdin = true) (hout : p.hasStdout = true)
    (hpoll : stEnv.pollNow = some code) (hpre : senv.pollPre = some code) :
    (stop_server c stEnv).1 = c ∧ (stop_server c stEnv).2 = [] ∧
    (stop_server c stEnv).1.mcp_server_process = some p ∧
    (send_command (stop_server c stEnv).1 m prm senv).res
      = SendOutcome.errTerminated code ∧
    (send_command (stop_server c stEnv).1 m prm senv).res
      ≠ SendOutcome.errNotRunning := by
  obtain ⟨proc, ctr⟩ := c
  obtain ⟨si, so⟩ := p
  obtain ⟨pn, gr⟩ := stEnv
  obtain ⟨e1, e2, e3, e4, e5, e6, e7⟩ := senv
  replace hproc : proc = some ⟨si, so⟩ := hproc
  replace hpoll : pn = some code := hpoll
  replace hpre : e1 = some code := hpre
  replace hin : si = true := hin
  replace hout : so = true := hout
  subst hproc hpoll hpre hin hout
  exact ⟨rfl, rfl, rfl, rfl, fun h => SendOutcome.noConfusion h⟩

/-- C10, witness: child exited with code 3; stop is a no-op on the handle
and the next invoke reports termination with code 3. -/
theorem C10_witness :
    (stop_server ⟨some ⟨true, true⟩, 4⟩ ⟨some 3, true⟩).1 = ⟨some ⟨true, true⟩, 4⟩ ∧
    (stop_server ⟨some ⟨true, true⟩, 4⟩ ⟨some 3, true⟩).2 = [] ∧
    (stop_server ⟨some ⟨true, true⟩, 4⟩ ⟨some 3, true⟩).1.mcp_server_process
      = some ⟨true, true⟩ ∧
    (send_command (stop_server ⟨some ⟨true, true⟩, 4⟩ ⟨some 3, true⟩).1 "get_layers" none
        ⟨some 3, none, true, ReadOutcome.eof, none, none, true⟩).res
      = SendOutcome.errTerminated 3 ∧
    (send_command (stop_server ⟨some ⟨true, true⟩, 4⟩ ⟨some 3, true⟩).1 "get_layers" none
        ⟨some 3, none, true, ReadOutcome.eof, none, none, true⟩).res
      ≠ SendOutcome.errNotRunning :=
  C10_dead_child_stop_then_invoke ⟨some ⟨true, true⟩, 4⟩ ⟨true, true⟩ 3 ⟨some 3, true⟩
    ⟨some 3, none, true, ReadOutcome.eof, none, none, true⟩ "get_layers" none
    rfl rfl rfl rfl rfl

end RhinoMCP
